import Mathlib

/-!
Shallow embedding of `src/indexer/src/configs.rs` from
near-indexer-for-explorer: the start-height resolution logic
(`get_start_block_height`, `final_block_height`), the RPC url selection
(`Opts::rpc_url`), and the AWS / lake configuration assembly
(`lake_aws_sdk_config`, `to_lake_config`).

External effects (the database query issued through
`adapters::blocks::latest_block_height` and the JSON-RPC block request)
are modelled by an explicit environment `Env` supplying their outcomes,
and every function additionally returns a `Trace` recording which
external sources were consulted and how many warnings were logged.
A Rust panic (the `.unwrap()` in `final_block_height`) is modelled as
`Except.error`.
-/

namespace Configs

/-- Rust `StartOptions` (configs.rs lines 68-75):
start from a specific block, from interruption, or from latest. -/
inductive StartOptions where
  | FromBlock (height : Nat)
  | FromInterruption
  | FromLatest
deriving Repr, DecidableEq

/-- Rust `ChainId` (configs.rs lines 59-64): each chain carries its
subcommand `StartOptions`. -/
inductive ChainId where
  | Mainnet (start_options : StartOptions)
  | Testnet (start_options : StartOptions)
deriving Repr, DecidableEq

/-- Rust `Opts` (configs.rs lines 22-56). `http::Uri` is modelled as a
string; `NonZeroU16` as `Nat`. The Rust field `rpc_url` is called
`rpc_url?` so that the method `Opts::rpc_url` can keep its source name. -/
structure Opts where
  database_url : String
  lake_aws_access_key : String
  lake_aws_secret_access_key : String
  s3_endpoint : Option String
  s3_bucket_name : Option String
  s3_region_name : Option String
  rpc_url? : Option String
  debug : Bool
  non_strict_mode : Bool
  concurrency : Nat
  chain_id : ChainId
deriving Repr, DecidableEq

/-- Rust `Opts::start_options` (configs.rs lines 79-83). -/
def Opts.start_options (o : Opts) : StartOptions :=
  match o.chain_id with
  | ChainId.Mainnet start_options => start_options
  | ChainId.Testnet start_options => start_options

/-- Rust `Opts::rpc_url` (configs.rs lines 112-121): the operator-supplied
url when present, otherwise the chain-specific default. -/
def Opts.rpc_url (o : Opts) : String :=
  match o.rpc_url? with
  | some rpc_url => rpc_url
  | none =>
    match o.chain_id with
    | ChainId.Mainnet _ => "https://rpc.mainnet.near.org"
    | ChainId.Testnet _ => "https://rpc.testnet.near.org"

/-- `aws_types::Credentials` as constructed in `lake_credentials`
(configs.rs lines 86-95). -/
structure Credentials where
  access_key : String
  secret_key : String
  session_token : Option String
  expires_after : Option Nat
  provider_name : String
deriving Repr, DecidableEq

/-- Rust `Opts::lake_credentials` (configs.rs lines 86-95). -/
def Opts.lake_credentials (o : Opts) : Credentials :=
  { access_key := o.lake_aws_access_key
    secret_key := o.lake_aws_secret_access_key
    session_token := none
    expires_after := none
    provider_name := "alertexer_lake" }

/-- The observable content of `aws_types::sdk_config::SdkConfig` that
`lake_aws_sdk_config` sets: credentials provider, region, and the
optional endpoint resolver override. -/
structure SdkConfig where
  credentials : Credentials
  region : String
  endpoint : Option String
deriving Repr, DecidableEq

/-- Rust `Opts::lake_aws_sdk_config` (configs.rs lines 98-110): builder
with the lake credentials and the hard-coded region `eu-central-1`,
overriding the endpoint only when `s3_endpoint` is given. -/
def Opts.lake_aws_sdk_config (o : Opts) : SdkConfig :=
  let s3_conf : SdkConfig :=
    { credentials := o.lake_credentials
      region := "eu-central-1"
      endpoint := none }
  match o.s3_endpoint with
  | some s3_endpoint => { s3_conf with endpoint := some s3_endpoint }
  | none => s3_conf

/-- `near_indexer_primitives::types::Finality`. -/
inductive Finality where
  | Optimistic
  | DoomSlug
  | Final
deriving Repr, DecidableEq

/-- `near_indexer_primitives::types::BlockReference` (block ids are
abstracted to their height). -/
inductive BlockReference where
  | BlockId (height : Nat)
  | Finality (finality : Finality)
  | SyncCheckpoint
deriving Repr, DecidableEq

/-- `methods::block::RpcBlockRequest` (configs.rs lines 214-216). -/
structure RpcBlockRequest where
  block_reference : BlockReference
deriving Repr, DecidableEq

/-- A block header as far as `final_block_height` reads it: its height. -/
structure BlockHeader where
  height : Nat
deriving Repr, DecidableEq

/-- The block view returned by the RPC block request. -/
structure BlockView where
  header : BlockHeader
deriving Repr, DecidableEq

/-- Opaque database error from `adapters::blocks::latest_block_height`. -/
structure DbError where
  msg : String
deriving Repr, DecidableEq

/-- Opaque JSON-RPC transport or response error. -/
structure RpcError where
  msg : String
deriving Repr, DecidableEq

/-- Environment supplying the outcomes of the two external sources:
the database query `adapters::blocks::latest_block_height` and the
JSON-RPC client keyed by the url it was connected to. -/
structure Env where
  latest_block_height : Except DbError (Option Nat)
  rpc : String → RpcBlockRequest → Except RpcError BlockView

/-- Effect trace: how many database (persistence) queries were made,
which network requests were issued (url paired with request), and how
many warnings were logged. -/
structure Trace where
  persistedQueries : Nat
  networkRequests : List (String × RpcBlockRequest)
  warnings : Nat
deriving Repr, DecidableEq

/-- The empty trace: no external calls, no warnings. -/
def Trace.empty : Trace :=
  { persistedQueries := 0, networkRequests := [], warnings := 0 }

/-- The request literal built in `final_block_height` (configs.rs lines
214-216): `BlockReference::Finality(Finality::Final)`. -/
def final_request : RpcBlockRequest :=
  { block_reference := BlockReference.Finality Finality.Final }

/-- Rust `final_block_height` (configs.rs lines 212-221): connect a
client to `opts.rpc_url()`, request the block at finality `Final`,
`.unwrap()` the response (panic modelled as `Except.error`), and return
`latest_block.header.height`. -/
def final_block_height (opts : Opts) (env : Env) :
    Except RpcError Nat × Trace :=
  match env.rpc opts.rpc_url final_request with
  | Except.ok latest_block =>
      (Except.ok latest_block.header.height,
       { persistedQueries := 0
         networkRequests := [(opts.rpc_url, final_request)]
         warnings := 0 })
  | Except.error e =>
      (Except.error e,
       { persistedQueries := 0
         networkRequests := [(opts.rpc_url, final_request)]
         warnings := 0 })

/-- Rust `get_start_block_height` (configs.rs lines 152-178):
`FromBlock` returns the given height; `FromInterruption` queries the
database for the last indexed block, returning it when found, and
otherwise (not found, or error with a warning logged) falls back to
`final_block_height`; `FromLatest` goes straight to
`final_block_height`. -/
def get_start_block_height (opts : Opts) (env : Env) :
    Except RpcError Nat × Trace :=
  match opts.start_options with
  | StartOptions.FromBlock height => (Except.ok height, Trace.empty)
  | StartOptions.FromInterruption =>
      match env.latest_block_height with
      | Except.ok (some last_indexed_block) =>
          (Except.ok last_indexed_block,
           { persistedQueries := 1, networkRequests := [], warnings := 0 })
      | Except.ok none =>
          let rt := final_block_height opts env
          (rt.1, { rt.2 with persistedQueries := rt.2.persistedQueries + 1 })
      | Except.error _err =>
          let rt := final_block_height opts env
          (rt.1, { persistedQueries := rt.2.persistedQueries + 1
                   networkRequests := rt.2.networkRequests
                   warnings := rt.2.warnings + 1 })
  | StartOptions.FromLatest => final_block_height opts env

/-- The chain selected on the lake config builder by `.mainnet()` /
`.testnet()` in `to_lake_config`. -/
inductive Chain where
  | mainnet
  | testnet
deriving Repr, DecidableEq

/-- The lake configuration as assembled by `to_lake_config`: the
`aws_sdk_s3` config built from the shared SDK config, the chain, the
resolved start height, and the optional bucket/region overrides. -/
structure LakeConfig where
  s3_config : SdkConfig
  chain : Chain
  start_block_height : Nat
  s3_bucket_name : Option String
  s3_region_name : Option String
deriving Repr, DecidableEq

/-- Rust `Opts::to_lake_config` (configs.rs lines 125-149): build the
s3 config from `lake_aws_sdk_config`, resolve the start height, pick
mainnet/testnet, then apply the optional bucket and region overrides. -/
def to_lake_config (opts : Opts) (env : Env) :
    Except RpcError LakeConfig × Trace :=
  let s3_config := opts.lake_aws_sdk_config
  let rt := get_start_block_height opts env
  match rt.1 with
  | Except.error e => (Except.error e, rt.2)
  | Except.ok start_block_height =>
      (Except.ok
        { s3_config := s3_config
          chain :=
            match opts.chain_id with
            | ChainId.Mainnet _ => Chain.mainnet
            | ChainId.Testnet _ => Chain.testnet
          start_block_height := start_block_height
          s3_bucket_name := opts.s3_bucket_name
          s3_region_name := opts.s3_region_name },
       rt.2)

/-- Two sequential resolutions against identical source states, as a
pair (the resolver threads no state from the first run to the second). -/
def resolve_twice (opts : Opts) (env : Env) :
    (Except RpcError Nat × Trace) × (Except RpcError Nat × Trace) :=
  (get_start_block_height opts env, get_start_block_height opts env)

/-- Updating only the bucket/region override options of `Opts`. -/
def set_s3_names (o : Opts) (b r : Option String) : Opts :=
  { o with s3_bucket_name := b, s3_region_name := r }

/-- A concrete mainnet `Opts` value used by the witness theorems. -/
def test_opts (start : StartOptions) : Opts :=
  { database_url := "postgres://localhost/explorer"
    lake_aws_access_key := "AKIA_TEST"
    lake_aws_secret_access_key := "SECRET_TEST"
    s3_endpoint := none
    s3_bucket_name := none
    s3_region_name := none
    rpc_url? := none
    debug := false
    non_strict_mode := false
    concurrency := 1
    chain_id := ChainId.Mainnet start }

/-- `test_opts` with an operator-supplied RPC url. -/
def test_opts_url (start : StartOptions) : Opts :=
  { test_opts start with rpc_url? := some "http://localhost:3030" }

/-- `test_opts` with endpoint, bucket and region overrides set. -/
def test_opts_ep : Opts :=
  { test_opts StartOptions.FromLatest with
      s3_endpoint := some "http://localhost:9000"
      s3_bucket_name := some "custom-bucket"
      s3_region_name := some "us-east-1" }

/-- Environment: database has a recorded height `h`, network finalized
height is `fin`. -/
def env_found (h fin : Nat) : Env :=
  { latest_block_height := Except.ok (some h)
    rpc := fun _ _ => Except.ok { header := { height := fin } } }

/-- Environment: database reachable but empty, network finalized height
is `fin`. -/
def env_notfound (fin : Nat) : Env :=
  { latest_block_height := Except.ok none
    rpc := fun _ _ => Except.ok { header := { height := fin } } }

/-- Environment: database query fails, network finalized height is
`fin`. -/
def env_db_down (fin : Nat) : Env :=
  { latest_block_height := Except.error { msg := "connection refused" }
    rpc := fun _ _ => Except.ok { header := { height := fin } } }

/-- Environment: database reachable but empty, network unreachable. -/
def env_rpc_down : Env :=
  { latest_block_height := Except.ok none
    rpc := fun _ _ => Except.error { msg := "network unreachable" } }

end Configs

namespace Configs

/-- Claim C1: in `FromInterruption` mode, when the persistence query
succeeds with a recorded height `h`, resolution returns exactly `h` and
issues no network request. -/
theorem from_interruption_found_returns_persisted
    (o : Opts) (env : Env) (h : Nat)
    (hmode : o.start_options = StartOptions.FromInterruption)
    (hdb : env.latest_block_height = Except.ok (some h)) :
    (get_start_block_height o env).1 = Except.ok h ∧
    (get_start_block_height o env).2.networkRequests = [] := by
  simp [get_start_block_height, hmode, hdb]

/-- Witness for C1: persisted height 100, finalized 500, resolver
returns 100 with no network request. -/
theorem from_interruption_found_returns_persisted_witness :
    (get_start_block_height (test_opts StartOptions.FromInterruption)
      (env_found 100 500)).1 = Except.ok 100 ∧
    (get_start_block_height (test_opts StartOptions.FromInterruption)
      (env_found 100 500)).2.networkRequests = [] :=
  from_interruption_found_returns_persisted
    (test_opts StartOptions.FromInterruption) (env_found 100 500) 100 rfl rfl

/-- Claim C2: in `FromInterruption` mode, when the persistence query
succeeds but finds no record, resolution falls through to the network
and returns the finalized height. -/
theorem from_interruption_notfound_falls_to_latest
    (o : Opts) (env : Env) (b : BlockView)
    (hmode : o.start_options = StartOptions.FromInterruption)
    (hdb : env.latest_block_height = Except.ok none)
    (hrpc : env.rpc o.rpc_url final_request = Except.ok b) :
    (get_start_block_height o env).1 = Except.ok b.header.height := by
  simp [get_start_block_height, hmode, hdb, final_block_height, hrpc]

/-- Witness for C2: persisted NotFound, finalized 500, resolver
returns 500. -/
theorem from_interruption_notfound_falls_to_latest_witness :
    (get_start_block_height (test_opts StartOptions.FromInterruption)
      (env_notfound 500)).1 = Except.ok 500 :=
  from_interruption_notfound_falls_to_latest
    (test_opts StartOptions.FromInterruption) (env_notfound 500)
    { header := { height := 500 } } rfl rfl rfl

/-- Claim C3: in `FromInterruption` mode, when the persistence query
fails, exactly one warning is logged and resolution falls through to
the network, returning the finalized height (the persistence failure is
not surfaced as a failure). -/
theorem from_interruption_unavailable_warns_once
    (o : Opts) (env : Env) (e : DbError) (b : BlockView)
    (hmode : o.start_options = StartOptions.FromInterruption)
    (hdb : env.latest_block_height = Except.error e)
    (hrpc : env.rpc o.rpc_url final_request = Except.ok b) :
    (get_start_block_height o env).1 = Except.ok b.header.height ∧
    (get_start_block_height o env).2.warnings = 1 := by
  simp [get_start_block_height, hmode, hdb, final_block_height, hrpc]

/-- Witness for C3: persisted Unavailable, finalized 500, resolver
returns 500 with exactly one warning. -/
theorem from_interruption_unavailable_warns_once_witness :
    (get_start_block_height (test_opts StartOptions.FromInterruption)
      (env_db_down 500)).1 = Except.ok 500 ∧
    (get_start_block_height (test_opts StartOptions.FromInterruption)
      (env_db_down 500)).2.warnings = 1 :=
  from_interruption_unavailable_warns_once
    (test_opts StartOptions.FromInterruption) (env_db_down 500)
    { msg := "connection refused" } { header := { height := 500 } }
    rfl rfl rfl

/-- Claim C4: whenever the finalized-height query succeeds, resolution
returns a height for every persistence outcome; any error resolution
returns is exactly a finalized-height query failure, and in `FromLatest`
mode a network failure propagates out with no height returned. -/
theorem only_network_failure_propagates (o : Opts) (env : Env) :
    (∀ b : BlockView, env.rpc o.rpc_url final_request = Except.ok b →
      ((get_start_block_height o env).1).isOk = true) ∧
    (∀ e : RpcError, (get_start_block_height o env).1 = Except.error e →
      env.rpc o.rpc_url final_request = Except.error e) ∧
    (∀ e : RpcError, o.start_options = StartOptions.FromLatest →
      env.rpc o.rpc_url final_request = Except.error e →
      (get_start_block_height o env).1 = Except.error e) := by
  refine ⟨?_, ?_, ?_⟩
  · intro b hrpc
    cases hso : o.start_options with
    | FromBlock height => simp [get_start_block_height, hso, Except.isOk, Except.toBool]
    | FromInterruption =>
      cases hdb : env.latest_block_height with
      | ok v =>
        cases v with
        | some lh => simp [get_start_block_height, hso, hdb, Except.isOk, Except.toBool]
        | none =>
          simp [get_start_block_height, hso, hdb, final_block_height, hrpc,
            Except.isOk, Except.toBool]
      | error e =>
        simp [get_start_block_height, hso, hdb, final_block_height, hrpc,
          Except.isOk, Except.toBool]
    | FromLatest =>
      simp [get_start_block_height, hso, final_block_height, hrpc, Except.isOk, Except.toBool]
  · intro e heq
    cases hso : o.start_options with
    | FromBlock height => simp [get_start_block_height, hso] at heq
    | FromInterruption =>
      cases hdb : env.latest_block_height with
      | ok v =>
        cases v with
        | some lh => simp [get_start_block_height, hso, hdb] at heq
        | none =>
          cases hrpc : env.rpc o.rpc_url final_request with
          | ok b =>
            simp [get_start_block_height, hso, hdb, final_block_height, hrpc] at heq
          | error e2 =>
            simp [get_start_block_height, hso, hdb, final_block_height, hrpc] at heq
            rw [heq]
      | error edb =>
        cases hrpc : env.rpc o.rpc_url final_request with
        | ok b =>
          simp [get_start_block_height, hso, hdb, final_block_height, hrpc] at heq
        | error e2 =>
          simp [get_start_block_height, hso, hdb, final_block_height, hrpc] at heq
          rw [heq]
    | FromLatest =>
      cases hrpc : env.rpc o.rpc_url final_request with
      | ok b =>
        simp [get_start_block_height, hso, final_block_height, hrpc] at heq
      | error e2 =>
        simp [get_start_block_height, hso, final_block_height, hrpc] at heq
        rw [heq]
  · intro e hso hrpc
    simp [get_start_block_height, hso, final_block_height, hrpc]

/-- Witness for C4: with the database down but the network up the
resolver still returns a height, and in `FromLatest` mode with the
network down it returns the network error and no height. -/
theorem only_network_failure_propagates_witness :
    ((get_start_block_height (test_opts StartOptions.FromInterruption)
      (env_db_down 500)).1).isOk = true ∧
    (get_start_block_height (test_opts StartOptions.FromLatest)
      env_rpc_down).1 = Except.error { msg := "network unreachable" } :=
  ⟨(only_network_failure_propagates
      (test_opts StartOptions.FromInterruption) (env_db_down 500)).1
      { header := { height := 500 } } rfl,
   (only_network_failure_propagates
      (test_opts StartOptions.FromLatest) env_rpc_down).2.2
      { msg := "network unreachable" } rfl rfl⟩

/-- Claim C5: in `FromBlock` mode resolution returns the operator's
height unchanged with an empty effect trace (no persistence query, no
network request, no warning). -/
theorem from_block_returns_height_no_io
    (o : Opts) (env : Env) (h : Nat)
    (hmode : o.start_options = StartOptions.FromBlock h) :
    get_start_block_height o env = (Except.ok h, Trace.empty) := by
  simp [get_start_block_height, hmode]

/-- Witness for C5: `FromBlock 42` resolves to 42 with an empty trace. -/
theorem from_block_returns_height_no_io_witness :
    get_start_block_height (test_opts (StartOptions.FromBlock 42))
      (env_found 100 500) = (Except.ok 42, Trace.empty) :=
  from_block_returns_height_no_io
    (test_opts (StartOptions.FromBlock 42)) (env_found 100 500) 42 rfl

/-- Claim C6: in `FromLatest` mode resolution makes zero persistence
queries regardless of the persistence state, and returns exactly the
finalized height reported by the network. -/
theorem from_latest_returns_finalized_no_persistence
    (o : Opts) (env : Env)
    (hmode : o.start_options = StartOptions.FromLatest) :
    (get_start_block_height o env).2.persistedQueries = 0 ∧
    (∀ b : BlockView, env.rpc o.rpc_url final_request = Except.ok b →
      (get_start_block_height o env).1 = Except.ok b.header.height) := by
  constructor
  · cases hrpc : env.rpc o.rpc_url final_request with
    | ok b => simp [get_start_block_height, hmode, final_block_height, hrpc]
    | error e => simp [get_start_block_height, hmode, final_block_height, hrpc]
  · intro b hrpc
    simp [get_start_block_height, hmode, final_block_height, hrpc]

/-- Witness for C6: `FromLatest` with a populated persistence store and
finalized height 777 resolves to 777 with zero persistence queries. -/
theorem from_latest_returns_finalized_no_persistence_witness :
    (get_start_block_height (test_opts StartOptions.FromLatest)
      (env_found 100 777)).2.persistedQueries = 0 ∧
    (get_start_block_height (test_opts StartOptions.FromLatest)
      (env_found 100 777)).1 = Except.ok 777 :=
  ⟨(from_latest_returns_finalized_no_persistence
      (test_opts StartOptions.FromLatest) (env_found 100 777) rfl).1,
   (from_latest_returns_finalized_no_persistence
      (test_opts StartOptions.FromLatest) (env_found 100 777) rfl).2
      { header := { height := 777 } } rfl⟩

/-- Claim C7: resolution is deterministic in its inputs: two sequential
runs with the same mode and identical source responses yield identical
results (the resolver holds no hidden mutable state). -/
theorem resolution_deterministic (o : Opts) (env : Env) :
    (resolve_twice o env).1 = (resolve_twice o env).2 := rfl

/-- Claim C8: every network request issued during resolution asks for
the block at finality `Final`, and `final_block_height` returns the
height field of the block header in the response. -/
theorem network_requests_use_final_finality (o : Opts) (env : Env) :
    (∀ p ∈ (get_start_block_height o env).2.networkRequests,
      p.2.block_reference = BlockReference.Finality Finality.Final) ∧
    (∀ b : BlockView, env.rpc o.rpc_url final_request = Except.ok b →
      (final_block_height o env).1 = Except.ok b.header.height) := by
  constructor
  · intro p hp
    cases hso : o.start_options with
    | FromBlock height => simp [get_start_block_height, hso, Trace.empty] at hp
    | FromInterruption =>
      cases hdb : env.latest_block_height with
      | ok v =>
        cases v with
        | some lh => simp [get_start_block_height, hso, hdb] at hp
        | none =>
          cases hrpc : env.rpc o.rpc_url final_request with
          | ok b =>
            simp [get_start_block_height, hso, hdb, final_block_height, hrpc] at hp
            simp [hp, final_request]
          | error e =>
            simp [get_start_block_height, hso, hdb, final_block_height, hrpc] at hp
            simp [hp, final_request]
      | error edb =>
        cases hrpc : env.rpc o.rpc_url final_request with
        | ok b =>
          simp [get_start_block_height, hso, hdb, final_block_height, hrpc] at hp
          simp [hp, final_request]
        | error e =>
          simp [get_start_block_height, hso, hdb, final_block_height, hrpc] at hp
          simp [hp, final_request]
    | FromLatest =>
      cases hrpc : env.rpc o.rpc_url final_request with
      | ok b =>
        simp [get_start_block_height, hso, final_block_height, hrpc] at hp
        simp [hp, final_request]
      | error e =>
        simp [get_start_block_height, hso, final_block_height, hrpc] at hp
        simp [hp, final_request]
  · intro b hrpc
    simp [final_block_height, hrpc]

/-- Witness for C8: the single request issued in `FromLatest` mode uses
finality `Final`, and `final_block_height` returns the header height
777 of the response. -/
theorem network_requests_use_final_finality_witness :
    ("https://rpc.mainnet.near.org", final_request).2.block_reference =
      BlockReference.Finality Finality.Final ∧
    (final_block_height (test_opts StartOptions.FromLatest)
      (env_found 100 777)).1 = Except.ok 777 :=
  ⟨(network_requests_use_final_finality
      (test_opts StartOptions.FromLatest) (env_found 100 777)).1
      ("https://rpc.mainnet.near.org", final_request) (by decide),
   (network_requests_use_final_finality
      (test_opts StartOptions.FromLatest) (env_found 100 777)).2
      { header := { height := 777 } } rfl⟩

/-- Claim C9: every network request is sent to `Opts::rpc_url`, which is
the operator-supplied url verbatim when present and otherwise the
chain-specific default (`https://rpc.mainnet.near.org` for mainnet,
`https://rpc.testnet.near.org` for testnet). -/
theorem rpc_url_selection (o : Opts) (env : Env) :
    (∀ p ∈ (get_start_block_height o env).2.networkRequests,
      p.1 = o.rpc_url) ∧
    (∀ u : String, o.rpc_url? = some u → o.rpc_url = u) ∧
    (o.rpc_url? = none → ∀ start : StartOptions,
      (o.chain_id = ChainId.Mainnet start →
        o.rpc_url = "https://rpc.mainnet.near.org") ∧
      (o.chain_id = ChainId.Testnet start →
        o.rpc_url = "https://rpc.testnet.near.org")) := by
  refine ⟨?_, ?_, ?_⟩
  · intro p hp
    cases hso : o.start_options with
    | FromBlock height => simp [get_start_block_height, hso, Trace.empty] at hp
    | FromInterruption =>
      cases hdb : env.latest_block_height with
      | ok v =>
        cases v with
        | some lh => simp [get_start_block_height, hso, hdb] at hp
        | none =>
          cases hrpc : env.rpc o.rpc_url final_request with
          | ok b =>
            simp [get_start_block_height, hso, hdb, final_block_height, hrpc] at hp
            simp [hp]
          | error e =>
            simp [get_start_block_height, hso, hdb, final_block_height, hrpc] at hp
            simp [hp]
      | error edb =>
        cases hrpc : env.rpc o.rpc_url final_request with
        | ok b =>
          simp [get_start_block_height, hso, hdb, final_block_height, hrpc] at hp
          simp [hp]
        | error e =>
          simp [get_start_block_height, hso, hdb, final_block_height, hrpc] at hp
          simp [hp]
    | FromLatest =>
      cases hrpc : env.rpc o.rpc_url final_request with
      | ok b =>
        simp [get_start_block_height, hso, final_block_height, hrpc] at hp
        simp [hp]
      | error e =>
        simp [get_start_block_height, hso, final_block_height, hrpc] at hp
        simp [hp]
  · intro u hu
    simp [Opts.rpc_url, hu]
  · intro hnone start
    constructor
    · intro hchain
      simp [Opts.rpc_url, hnone, hchain]
    · intro hchain
      simp [Opts.rpc_url, hnone, hchain]

/-- Witness for C9: the request in `FromLatest` mode goes to the
resolved url; an explicit url is used verbatim; the mainnet default is
`https://rpc.mainnet.near.org`. -/
theorem rpc_url_selection_witness :
    ("https://rpc.mainnet.near.org", final_request).1 =
      (test_opts StartOptions.FromLatest).rpc_url ∧
    (test_opts_url StartOptions.FromLatest).rpc_url =
      "http://localhost:3030" ∧
    (test_opts StartOptions.FromLatest).rpc_url =
      "https://rpc.mainnet.near.org" :=
  ⟨(rpc_url_selection (test_opts StartOptions.FromLatest)
      (env_found 100 777)).1
      ("https://rpc.mainnet.near.org", final_request) (by decide),
   (rpc_url_selection (test_opts_url StartOptions.FromLatest)
      (env_found 100 777)).2.1 "http://localhost:3030" rfl,
   ((rpc_url_selection (test_opts StartOptions.FromLatest)
      (env_found 100 777)).2.2 rfl StartOptions.FromLatest).1 rfl⟩

/-- Claim C10: the AWS SDK config always carries the hard-coded region
`eu-central-1`; it is unaffected by the `s3_bucket_name` and
`s3_region_name` options, which reach only the lake config builder; and
its only variable parts are the credentials and the endpoint override
taken from `s3_endpoint`. -/
theorem sdk_config_region_fixed (o : Opts) (env : Env) :
    (o.lake_aws_sdk_config).region = "eu-central-1" ∧
    (∀ b r : Option String,
      (set_s3_names o b r).lake_aws_sdk_config = o.lake_aws_sdk_config) ∧
    (o.lake_aws_sdk_config).endpoint = o.s3_endpoint ∧
    (o.lake_aws_sdk_config).credentials = o.lake_credentials ∧
    (∀ (cfg : LakeConfig) (t : Trace),
      to_lake_config o env = (Except.ok cfg, t) →
      cfg.s3_config = o.lake_aws_sdk_config ∧
      cfg.s3_bucket_name = o.s3_bucket_name ∧
      cfg.s3_region_name = o.s3_region_name) := by
  refine ⟨?_, ?_, ?_, ?_, ?_⟩
  · cases he : o.s3_endpoint <;> simp [Opts.lake_aws_sdk_config, he]
  · intro b r
    cases he : o.s3_endpoint <;>
      simp [Opts.lake_aws_sdk_config, set_s3_names, Opts.lake_credentials, he]
  · cases he : o.s3_endpoint <;> simp [Opts.lake_aws_sdk_config, he]
  · cases he : o.s3_endpoint <;> simp [Opts.lake_aws_sdk_config, he]
  · intro cfg t hcfg
    unfold to_lake_config at hcfg
    cases hr : (get_start_block_height o env).1 with
    | ok v =>
      simp [hr] at hcfg
      obtain ⟨hcfg1, _⟩ := hcfg
      subst hcfg1
      simp
    | error e => simp [hr] at hcfg

/-- Witness for C10: with bucket, region and endpoint overrides all set,
the SDK config region is still `eu-central-1`, clearing the bucket and
region options leaves the SDK config unchanged, and the built lake
config carries the SDK config plus the bucket and region options. -/
theorem sdk_config_region_fixed_witness :
    (test_opts_ep.lake_aws_sdk_config).region = "eu-central-1" ∧
    (set_s3_names test_opts_ep none none).lake_aws_sdk_config =
      test_opts_ep.lake_aws_sdk_config ∧
    ({ s3_config := test_opts_ep.lake_aws_sdk_config
       chain := Chain.mainnet
       start_block_height := 777
       s3_bucket_name := some "custom-bucket"
       s3_region_name := some "us-east-1" : LakeConfig }.s3_config =
        test_opts_ep.lake_aws_sdk_config ∧
     ({ s3_config := test_opts_ep.lake_aws_sdk_config
        chain := Chain.mainnet
        start_block_height := 777
        s3_bucket_name := some "custom-bucket"
        s3_region_name := some "us-east-1" : LakeConfig }.s3_bucket_name =
        test_opts_ep.s3_bucket_name ∧
      { s3_config := test_opts_ep.lake_aws_sdk_config
        chain := Chain.mainnet
        start_block_height := 777
        s3_bucket_name := some "custom-bucket"
        s3_region_name := some "us-east-1" : LakeConfig }.s3_region_name =
        test_opts_ep.s3_region_name)) :=
  ⟨(sdk_config_region_fixed test_opts_ep (env_found 100 777)).1,
   (sdk_config_region_fixed test_opts_ep (env_found 100 777)).2.1 none none,
   (sdk_config_region_fixed test_opts_ep (env_found 100 777)).2.2.2.2
     { s3_config := test_opts_ep.lake_aws_sdk_config
       chain := Chain.mainnet
       start_block_height := 777
       s3_bucket_name := some "custom-bucket"
       s3_region_name := some "us-east-1" }
     { persistedQueries := 0
       networkRequests := [("https://rpc.mainnet.near.org", final_request)]
       warnings := 0 }
     rfl⟩

end Configs
